import Mathlib

/-!
Verification development for the expert remediation engine of the `aik8s`
repository.  The definitions below are a shallow embedding of the Python
sources `src/agent/utils.py` (SafetyValidator), `src/agent/issue_history_manager.py`
(IssueHistoryManager) and `src/agent/expert_remediation_engine.py`
(ExpertRemediationEngine).  Python floats are modelled as exact rationals (`ℚ`),
Python strings as `String` / `List Char`, timestamps as epoch seconds (`Int`),
and fallible code (raised exceptions) as `Option`.  Regular-expression source
strings from the code are modelled as abstract syntax trees matched with
Brzozowski derivatives; the subset of syntax used by the repository
(literals, `\s`, `.`, classes, `*`, `+`) is supported exactly.
-/

/-! ### Basic string helpers (Python `str` operations, ASCII semantics) -/

/-- Lowercase a string into a character list (Python `str.lower`, ASCII). -/
def lowerStr (s : String) : List Char := s.toList.map Char.toLower

/-- Characters stripped by Python `str.strip()` and matched by the regex
class `\s` (ASCII subset). -/
def isPySpace (c : Char) : Bool :=
  c == ' ' || c == '\t' || c == '\n' || c == '\r' || c == '\x0b' || c == '\x0c'

/-- Python `str.strip()`: drop leading and trailing whitespace. -/
def pyStrip (l : List Char) : List Char :=
  ((l.dropWhile isPySpace).reverse.dropWhile isPySpace).reverse

/-- Boolean list-prefix test (Python `str.startswith`). -/
def isPrefixL : List Char → List Char → Bool
  | [], _ => true
  | _ :: _, [] => false
  | a :: as, b :: bs => a == b && isPrefixL as bs

/-- Boolean contiguous-substring test (Python `needle in haystack`). -/
def containsSub (needle : List Char) : List Char → Bool
  | [] => needle.isEmpty
  | c :: rest => isPrefixL needle (c :: rest) || containsSub needle rest

/-- Python `int()` truncation of a rational toward zero. -/
def pyTrunc (q : ℚ) : Int := q.num / (q.den : Int)

/-- Last `n` elements of a list (Python slice `l[-n:]` for `n > 0`). -/
def lastN (n : Nat) (l : List α) : List α := l.drop (l.length - n)

/-! ### Regular expressions (the subset used by the repository's patterns)

Matching is implemented with Brzozowski derivatives; `rsearch` has Python
`re.search` semantics (a match anywhere in the string).  The repository always
matches with `re.IGNORECASE`; since every pattern in the source is
lower-case, this is modelled by matching against the lower-cased input. -/

inductive Regex where
  | emp : Regex
  | eps : Regex
  | chr : Char → Regex
  | cls : List Char → Regex
  | any : Regex
  | alt : Regex → Regex → Regex
  | cat : Regex → Regex → Regex
  | star : Regex → Regex
deriving DecidableEq

/-- Does the regex accept the empty string? -/
def Regex.nullable : Regex → Bool
  | .emp => false
  | .eps => true
  | .chr _ => false
  | .cls _ => false
  | .any => false
  | .alt r s => r.nullable || s.nullable
  | .cat r s => r.nullable && s.nullable
  | .star _ => true

/-- Brzozowski derivative of a regex with respect to one character. -/
def Regex.deriv (c : Char) : Regex → Regex
  | .emp => .emp
  | .eps => .emp
  | .chr d => if c == d then .eps else .emp
  | .cls ds => if ds.contains c then .eps else .emp
  | .any => .eps
  | .alt r s => .alt (r.deriv c) (s.deriv c)
  | .cat r s =>
      if r.nullable then .alt (.cat (r.deriv c) s) (s.deriv c)
      else .cat (r.deriv c) s
  | .star r => .cat (r.deriv c) (.star r)

/-- Whole-string match. -/
def rmatch (r : Regex) (s : List Char) : Bool :=
  (s.foldl (fun r c => r.deriv c) r).nullable

/-- Python `re.search`: the pattern matches somewhere inside the string. -/
def rsearch (r : Regex) (s : List Char) : Bool :=
  rmatch (.cat (.star .any) (.cat r (.star .any))) s

/-- Literal string as a regex. -/
def rstr (s : String) : Regex :=
  s.toList.foldr (fun c r => Regex.cat (Regex.chr c) r) Regex.eps

/-- The `\s` character class. -/
def rws : Regex := Regex.cls [' ', '\t', '\n', '\r', '\x0b', '\x0c']

/-- `r+` (one or more repetitions). -/
def rplus (r : Regex) : Regex := .cat r (.star r)

/-! ### SafetyValidator (`src/agent/utils.py`, class `SafetyValidator`) -/

/-- Result dictionary of `SafetyValidator.validate_command`. -/
structure SafetyCheckResult where
  safe : Bool
  reason : String
  risk_level : String
  requires_confirmation : Bool
deriving DecidableEq

/-- Source field `SafetyValidator.dangerous_patterns`: each regex source
string paired with its modelled AST. -/
def dangerous_patterns : List (String × Regex) :=
  [ ("rm\\s+-rf\\s+/",
      .cat (rstr "rm") (.cat (rplus rws) (.cat (rstr "-rf") (.cat (rplus rws) (rstr "/"))))),
    ("dd\\s+if=.*of=/dev/",
      .cat (rstr "dd") (.cat (rplus rws) (.cat (rstr "if=") (.cat (.star .any) (rstr "of=/dev/"))))),
    ("mkfs\\.", rstr "mkfs."),
    ("fdisk", rstr "fdisk"),
    ("parted", rstr "parted"),
    ("shutdown", rstr "shutdown"),
    ("reboot", rstr "reboot"),
    ("halt", rstr "halt"),
    ("init\\s+[06]",
      .cat (rstr "init") (.cat (rplus rws) (.cls ['0', '6']))),
    ("killall\\s+-9",
      .cat (rstr "killall") (.cat (rplus rws) (rstr "-9"))),
    (":\\(\\)\\\x7b\\s*:\\|:&\\s*\\\x7d;:",
      .cat (rstr ":()\x7b") (.cat (.star rws) (.cat (rstr ":|:&") (.cat (.star rws) (rstr "\x7d;:"))))),
    ("chmod\\s+777\\s+/",
      .cat (rstr "chmod") (.cat (rplus rws) (.cat (rstr "777") (.cat (rplus rws) (rstr "/"))))),
    ("chown\\s+.*\\s+/",
      .cat (rstr "chown") (.cat (rplus rws) (.cat (.star .any) (.cat (rplus rws) (rstr "/"))))) ]

/-- Source field `SafetyValidator.safe_prefixes`. -/
def safe_prefixes : List String :=
  [ "kubectl get", "kubectl describe", "kubectl logs", "docker ps",
    "docker images", "ps aux", "top", "free", "df", "du", "mount",
    "ip addr", "ping", "netstat", "ss", "systemctl status", "journalctl",
    "cat", "less", "tail", "head", "grep", "find", "ls",
    "gluster volume status", "gluster peer status", "gluster volume info" ]

/-- Does the command match any dangerous pattern (`re.search` with
`re.IGNORECASE`, modelled on the lower-cased command)? -/
def matchesDangerous (command : String) : Bool :=
  dangerous_patterns.any (fun pr => rsearch pr.2 (lowerStr command))

/-- Does the lower-cased, stripped command start with a safe prefix? -/
def matchesSafePrefixList (command : String) : Bool :=
  safe_prefixes.any (fun pre => isPrefixL (lowerStr pre) (pyStrip (lowerStr command)))

/-- `SafetyValidator.validate_command(command, safety_level)`. -/
def validate_command (command : String) (safety_level : String) : SafetyCheckResult :=
  match dangerous_patterns.find? (fun pr => rsearch pr.2 (lowerStr command)) with
  | some pr =>
      ⟨false, "Contains dangerous pattern: " ++ pr.1, "HIGH", true⟩
  | none =>
      if matchesSafePrefixList command then
        ⟨true, "Command matches safe pattern", "SAFE", false⟩
      else if safety_level = "SAFE" then
        ⟨true, "Marked as safe by pattern definition", "SAFE", false⟩
      else if safety_level = "MEDIUM" then
        ⟨true, "Medium risk command, requires confirmation", "MEDIUM", true⟩
      else
        ⟨false, "High risk command, manual execution required", "HIGH", true⟩

/-! ### IssueHistoryManager (`src/agent/issue_history_manager.py`)

The manager's `self.data['issue_history']` dict is modelled as an association
list from issue ids to history entries (Python dicts preserve insertion
order).  File persistence (`_load_history` / `_save_history`) is I/O and the
aggregate `learning_analytics` block is recomputed side data touched by no
claim; the embedding models the `issue_history` component, which is the state
every claim quantifies over. -/

/-- Current live-system signals consumed by the scorer's context boost
(the keys the code reads from the `system_context` dict, with the
defaults used by `dict.get`). -/
structure SystemContext where
  kubernetes_available : Bool := false
  pod_errors : Int := 0
  os_type : String := ""
  disk_usage : ℚ := 0
  gluster_available : Bool := false
deriving DecidableEq

/-- One historical record (`IssueOccurrence` dataclass / the occurrence dicts
built by `track_issue`).  Timestamps are epoch seconds UTC; the opaque
`system_context` snapshot dict is modelled as an association list. -/
structure IssueOccurrence where
  timestamp : Int
  severity : String
  resolution_time : ℚ
  success : Bool
  root_cause : String
  resolution_method : String
  confidence_score : ℚ
  system_context : List (String × String) := []
deriving DecidableEq

/-- Learned per-issue statistics (the `patterns` dict of an issue entry). -/
structure IssuePatternStats where
  common_causes : List String
  success_rate : ℚ
  avg_resolution_time : Int
  frequency_trend : String
  seasonal_pattern : String
deriving DecidableEq

/-- Initial `patterns` dict created for a new issue id in `track_issue`. -/
def defaultStats : IssuePatternStats :=
  ⟨[], 0, 0, "stable", "none"⟩

/-- One value of `self.data['issue_history']`. -/
structure IssueHistoryEntry where
  occurrences : List IssueOccurrence
  patterns : IssuePatternStats
deriving DecidableEq

/-- The `issue_history` dict: issue id → entry, insertion ordered. -/
abbrev Store : Type := List (String × IssueHistoryEntry)

/-- Dict lookup `self.data['issue_history'][issue_id]`. -/
def lookupEntry (s : Store) (issue_id : String) : Option IssueHistoryEntry :=
  (List.find? (fun p => p.1 = issue_id) s).map (fun p => p.2)

/-- Dict write `self.data['issue_history'][issue_id] = e`: replace the
value of an existing key in place, or append a new key at the end (Python
dict assignment; keys are unique in every store built by the manager). -/
def setEntry : Store → String → IssueHistoryEntry → Store
  | [], issue_id, e => [(issue_id, e)]
  | p :: ps, issue_id, e =>
      if p.1 = issue_id then (issue_id, e) :: ps else p :: setEntry ps issue_id e

/-- `self.max_occurrences` (keep last 3 occurrences per issue type). -/
def max_occurrences : Nat := 3

/-- The `occurrence_data` argument of `track_issue`: a dict whose missing
keys are filled in by `dict.get` defaults. -/
structure OccurrenceData where
  timestamp : Option Int := none
  severity : Option String := none
  resolution_time : Option ℚ := none
  success : Option Bool := none
  root_cause : Option String := none
  resolution_method : Option String := none
  confidence_score : Option ℚ := none
  system_context : Option (List (String × String)) := none
deriving DecidableEq

/-- The `new_occurrence` dict built inside `track_issue` (`now` is the
current wall-clock time used for the timestamp default). -/
def applyDefaults (now : Int) (d : OccurrenceData) : IssueOccurrence :=
  ⟨d.timestamp.getD now,
   d.severity.getD "MEDIUM",
   d.resolution_time.getD 0,
   d.success.getD false,
   d.root_cause.getD "Unknown",
   d.resolution_method.getD "Manual",
   d.confidence_score.getD (1/2),
   d.system_context.getD []⟩

/-- Hour-of-day of an epoch-seconds UTC timestamp (`datetime.hour`). -/
def tsHour (t : Int) : Int := (t.fdiv 3600) % 24

/-- Day-of-week, Monday = 0 (`datetime.weekday`); epoch day zero was a
Thursday. -/
def tsWeekday (t : Int) : Int := (t.fdiv 86400 + 3) % 7

/-- Whole days between two timestamps (`(b - a).days`; Python
`timedelta.days` floors toward minus infinity). -/
def daysBetween (a b : Int) : Int := (b - a).fdiv 86400

/-- `IssueHistoryManager._detect_seasonal_pattern(occurrences)`. -/
def detect_seasonal_pattern (occs : List IssueOccurrence) : String :=
  if occs.length < 2 then "none"
  else
    let hours := occs.map (fun o => tsHour o.timestamp)
    let weekdays := occs.map (fun o => tsWeekday o.timestamp)
    let n : ℚ := occs.length
    let business : ℚ := hours.countP (fun h => decide (9 ≤ h ∧ h ≤ 17))
    if business / n > 7/10 then "business_hours"
    else
      let wknd : ℚ := weekdays.countP (fun w => decide (5 ≤ w))
      if wknd / n > 7/10 then "weekends"
      else
        let night : ℚ := hours.countP (fun h => decide (22 ≤ h ∨ h ≤ 6))
        if night / n > 1/2 then "maintenance_windows"
        else "none"

/-- Deduplicate keeping the first occurrence of each element.  The source
computes `list(set(causes))`, whose order CPython leaves unspecified; no
claim depends on the order, only on the member set, and dict-shaped
consumers (`cause_scores`) iterate in first-insertion order. -/
def dedupFirst : List String → List String
  | [] => []
  | x :: xs => x :: dedupFirst (xs.filter (fun y => decide (y ≠ x)))
termination_by l => l.length
decreasing_by
  simp only [List.length_cons]
  exact Nat.lt_succ_of_le (List.length_filter_le _ _)

/-- `IssueHistoryManager._update_patterns`, as the pure function from the
current occurrence window (and the previous stats, kept when the window is
empty) to the new `patterns` dict. -/
def update_patterns_stats (occs : List IssueOccurrence) (old : IssuePatternStats) :
    IssuePatternStats :=
  if occs.isEmpty then old
  else
    let successful := occs.countP (fun o => o.success)
    let success_rate : ℚ := (successful : ℚ) / (occs.length : ℚ)
    let resolution_times := (occs.filter (fun o => o.success)).map (fun o => o.resolution_time)
    let avg_resolution_time : ℚ :=
      if resolution_times.isEmpty then 0
      else resolution_times.sum / (resolution_times.length : ℚ)
    let causes := (occs.filter (fun o => decide (o.root_cause ≠ "Unknown"))).map
      (fun o => o.root_cause)
    let common_causes := dedupFirst causes
    let frequency_trend :=
      match lastN 2 occs with
      | [a, b] =>
          let time_diff := daysBetween a.timestamp b.timestamp
          if time_diff < 7 then "increasing"
          else if time_diff > 30 then "decreasing"
          else "stable"
      | _ => "stable"
    ⟨common_causes, success_rate, pyTrunc avg_resolution_time, frequency_trend,
      detect_seasonal_pattern occs⟩

/-- `IssueHistoryManager.track_issue(issue_id, occurrence_data)` as a state
transition on the store (`now` is the wall clock used for defaults). -/
def track_issue (s : Store) (issue_id : String) (now : Int) (d : OccurrenceData) : Store :=
  let entry := (lookupEntry s issue_id).getD ⟨[], defaultStats⟩
  let occs := entry.occurrences ++ [applyDefaults now d]
  let occs := if max_occurrences < occs.length then lastN max_occurrences occs else occs
  setEntry s issue_id ⟨occs, update_patterns_stats occs entry.patterns⟩

/-- `IssueHistoryManager.has_similar_issue(issue_id)`. -/
def has_similar_issue (s : Store) (issue_id : String) : Bool :=
  match lookupEntry s issue_id with
  | some e => decide (¬ e.occurrences.isEmpty)
  | none => false

/-- `self.learning_weights` of the manager. -/
structure LearningWeights where
  success_rate : ℚ
  frequency : ℚ
  recency : ℚ
  specificity : ℚ

def learning_weights : LearningWeights := ⟨2/5, 3/10, 1/5, 1/10⟩

/-- `IssueHistoryManager._calculate_recency_weight(occurrences, target_cause)`. -/
def calculate_recency_weight (occurrences : List IssueOccurrence)
    (target_cause : String) : ℚ :=
  let recent := (lastN 2 occurrences).filter (fun o => o.root_cause == target_cause)
  if recent.isEmpty then 1/10
  else (recent.length : ℚ) / ((min occurrences.length 2 : Nat) : ℚ)

/-- Weighted score computed for one cause inside
`IssueHistoryManager.predict_root_cause`. -/
def causeScore (occurrences successful : List IssueOccurrence)
    (pattern_success_rate : ℚ) (cause : String) : ℚ :=
  let frequency := successful.countP (fun o => o.root_cause == cause)
  let freq_weight : ℚ := (frequency : ℚ) / (successful.length : ℚ)
  let confs := (successful.filter (fun o => o.root_cause == cause)).map
    (fun o => o.confidence_score)
  let confidence_weight : ℚ := confs.sum / (confs.length : ℚ)
  let recency_weight := calculate_recency_weight occurrences cause
  freq_weight * learning_weights.frequency +
    confidence_weight * learning_weights.specificity +
    recency_weight * learning_weights.recency +
    pattern_success_rate * learning_weights.success_rate

/-- First maximum of `f` over a list (Python `max(l, key=f)` keeps the
earliest maximal element). -/
def maxBy (f : α → ℚ) : List α → Option α
  | [] => none
  | x :: xs =>
      match maxBy f xs with
      | none => some x
      | some m => if f m > f x then some m else some x

/-- `IssueHistoryManager.predict_root_cause(issue_id)`, returning the
`(predicted_cause, confidence_score)` pair.  The final fallback arm mirrors
the function's `except` handler and is unreachable from the earlier arms. -/
def predict_root_cause (s : Store) (issue_id : String) : String × ℚ :=
  match lookupEntry s issue_id with
  | none => ("No historical data available", 1/10)
  | some e =>
      if e.occurrences.isEmpty then ("No historical data available", 1/10)
      else
        let successful := e.occurrences.filter (fun o => o.success)
        if successful.isEmpty then ("No successful resolutions in history", 1/5)
        else
          let causes := dedupFirst (successful.map (fun o => o.root_cause))
          let score := causeScore e.occurrences successful e.patterns.success_rate
          match maxBy score causes with
          | some best => (best, min (score best) (19/20))
          | none => ("Prediction error", 1/10)

/-- `IssueHistoryManager.get_recommendation_confidence(issue_id,
resolution_method)`. -/
def get_recommendation_confidence (s : Store) (issue_id resolution_method : String) : ℚ :=
  match lookupEntry s issue_id with
  | none => 3/10
  | some e =>
      if e.occurrences.isEmpty then 3/10
      else
        let similar := e.occurrences.filter
          (fun o => containsSub (lowerStr resolution_method) (lowerStr o.resolution_method))
        if similar.isEmpty then 2/5
        else
          let successful := similar.countP (fun o => o.success)
          let success_rate : ℚ := (successful : ℚ) / (similar.length : ℚ)
          min (success_rate * (7/10) + e.patterns.success_rate * (3/10)) (19/20)

/-! ### ExpertRemediationEngine (`src/agent/expert_remediation_engine.py`) -/

/-- One remediation step template of a catalog pattern. -/
structure RemediationStep where
  action : String
  command : String
  description : String
  safety_level : String
deriving DecidableEq

/-- Catalog entry (`IssuePattern` dataclass of the engine).  The regex
pattern source strings are modelled as regex ASTs. -/
structure IssuePattern where
  id : Int
  category : String
  name : String
  keywords : List String
  regex_patterns : List Regex
  severity : String
  confidence_base : ℚ
  description : String
  symptoms : List String
  remediation_steps : List RemediationStep
deriving DecidableEq

/-- One `pattern_data` dict of the parsed YAML catalog.  Required keys are
read with `pattern_data[...]` (raising `KeyError` when missing, modelled by
`Option`); `symptoms` is read with `.get(..., [])`. -/
structure RawPattern where
  id : Option Int := none
  category : Option String := none
  name : Option String := none
  keywords : Option (List String) := none
  regex_patterns : Option (List Regex) := none
  severity : Option String := none
  confidence_base : Option ℚ := none
  description : Option String := none
  symptoms : Option (List String) := none
  remediation_steps : Option (List RemediationStep) := none
deriving DecidableEq

/-- Construction of one `IssuePattern` inside the loader's loop; `none`
models the `KeyError` raised on a missing required field. -/
def buildPattern (r : RawPattern) : Option IssuePattern := do
  let id ← r.id
  let category ← r.category
  let name ← r.name
  let keywords ← r.keywords
  let regex_patterns ← r.regex_patterns
  let severity ← r.severity
  let confidence_base ← r.confidence_base
  let description ← r.description
  let remediation_steps ← r.remediation_steps
  pure ⟨id, category, name, keywords, regex_patterns, severity, confidence_base,
        description, r.symptoms.getD [], remediation_steps⟩

/-- The loader's `for pattern_id, pattern_data in patterns.items()` loop:
builds every entry, propagating a raised `KeyError` (`none`). -/
def loadPatterns : List (String × RawPattern) → Option (List (String × IssuePattern))
  | [] => some []
  | kr :: rest => do
      let p ← buildPattern kr.2
      let tail ← loadPatterns rest
      pure ((kr.1, p) :: tail)

/-- `ExpertRemediationEngine.load_knowledge_base(patterns_file)`.  `none`
as the source models a missing/unreadable/unparsable YAML file; any raised
error is caught by the function's `except` handler, which logs it and
returns the empty dict. -/
def load_knowledge_base (src : Option (List (String × RawPattern))) :
    List (String × IssuePattern) :=
  match src with
  | none => []
  | some patterns =>
      match loadPatterns patterns with
      | some kb => kb
      | none => []

/-- `self.confidence_adjustments` of the engine. -/
structure ConfidenceAdjustments where
  historical_match : ℚ
  system_context : ℚ
  pattern_specificity : ℚ

def confidence_adjustments : ConfidenceAdjustments := ⟨3/20, 1/10, 1/20⟩

/-- The signature string `f"{category.lower().replace(' ', '_')}_..."` used
by `_calculate_confidence` to query the History Store. -/
def pySlug (s : String) : String :=
  String.mk (s.toList.map (fun c => if c = ' ' then '_' else c.toLower))

def pattern_signature (p : IssuePattern) : String :=
  pySlug p.category ++ "_" ++ pySlug p.name

/-- `ExpertRemediationEngine._calculate_context_relevance(pattern,
system_context)`. -/
def calculate_context_relevance (p : IssuePattern) (ctx : SystemContext) : ℚ :=
  let relevance : ℚ :=
    if p.category = "Kubernetes" then
      (if ctx.kubernetes_available then 1/20 else 0) +
      (if 0 < ctx.pod_errors ∧ containsSub "pod".toList (lowerStr p.name) then 1/20 else 0)
    else if p.category = "Ubuntu OS" then
      (if ctx.os_type = "ubuntu" then 1/20 else 0) +
      (if p.name = "Disk Space Issues" ∧ 80 < ctx.disk_usage then 1/10 else 0)
    else if p.category = "GlusterFS" then
      (if ctx.gluster_available then 1/20 else 0)
    else 0
  min (1/10) relevance

/-- `ExpertRemediationEngine._calculate_confidence(pattern, user_input,
system_context)`.  `user_input` is the already lower-cased text (as passed
by `recognize_issue_pattern`); `none` models the `ZeroDivisionError` raised
when a keyword or regex list is empty. -/
def calculate_confidence (store : Store) (p : IssuePattern) (user_input : List Char)
    (system_context : Option SystemContext) : Option ℚ :=
  if p.keywords.length = 0 then none
  else
    let keyword_matches := p.keywords.countP (fun kw => containsSub (lowerStr kw) user_input)
    let keyword_score : ℚ := ((keyword_matches : ℚ) / (p.keywords.length : ℚ)) * (2/5)
    if p.regex_patterns.length = 0 then none
    else
      let regex_matches := p.regex_patterns.countP (fun r => rsearch r user_input)
      let regex_score : ℚ := ((regex_matches : ℚ) / (p.regex_patterns.length : ℚ)) * (3/10)
      let historical_boost : ℚ :=
        if has_similar_issue store (pattern_signature p) then
          confidence_adjustments.historical_match
        else 0
      let context_boost : ℚ :=
        match system_context with
        | none => 0
        | some ctx => calculate_context_relevance p ctx
      some (min 1 (p.confidence_base + keyword_score + regex_score +
                   historical_boost + context_boost))

/-- Return value of `IssueHistoryManager.get_pattern_history`: the entry's
dicts, with `patterns = none` modelling the empty (falsy) dict returned for
an unknown issue id. -/
structure PatternHistory where
  occurrences : List IssueOccurrence
  patterns : Option IssuePatternStats
deriving DecidableEq

def get_pattern_history (s : Store) (issue_id : String) : PatternHistory :=
  match lookupEntry s issue_id with
  | some e => ⟨e.occurrences, some e.patterns⟩
  | none => ⟨[], none⟩

/-- Content of the prediction string built by
`ExpertRemediationEngine._predict_root_cause` (the source renders these
three cases into prose; no claim inspects the rendered text). -/
inductive RootCausePrediction where
  | noData : RootCausePrediction
  | insufficient : RootCausePrediction
  | predicted : String → ℚ → List String → RootCausePrediction
deriving DecidableEq

def predict_root_cause_summary (hist : PatternHistory) : RootCausePrediction :=
  match hist.patterns with
  | none => .noData
  | some stats =>
      match stats.common_causes with
      | [] => .insufficient
      | primary :: rest => .predicted primary stats.success_rate rest

/-- `MatchResult` dataclass of the engine. -/
structure MatchResult where
  pattern : IssuePattern
  confidence : ℚ
  matched_keywords : List String
  matched_regex : List Regex
  historical_context : PatternHistory
  root_cause_prediction : RootCausePrediction
deriving DecidableEq

/-- One iteration of the candidate loop in
`ExpertRemediationEngine.recognize_issue_pattern`; the state is
`(best_match, highest_confidence)` and `none` propagates a raised
exception. -/
def recognizeStep (store : Store) (ctx : Option SystemContext) (input_lower : List Char)
    (st : Option MatchResult × ℚ) (pp : String × IssuePattern) :
    Option (Option MatchResult × ℚ) :=
  match calculate_confidence store pp.2 input_lower ctx with
  | none => none
  | some confidence =>
      if st.2 < confidence ∧ 1/2 < confidence then
        let matched_keywords := pp.2.keywords.filter
          (fun kw => containsSub (lowerStr kw) input_lower)
        let matched_regex := pp.2.regex_patterns.filter (fun r => rsearch r input_lower)
        let historical_context := get_pattern_history store pp.1
        some (some ⟨pp.2, confidence, matched_keywords, matched_regex, historical_context,
                    predict_root_cause_summary historical_context⟩,
              confidence)
      else some st

/-- `ExpertRemediationEngine.recognize_issue_pattern(user_input,
system_context)`.  The surrounding `try/except` converts any raised error
into the same `None` that "no candidate above threshold" produces. -/
def recognize_issue_pattern (kb : List (String × IssuePattern)) (store : Store)
    (user_input : String) (ctx : Option SystemContext) : Option MatchResult :=
  let input_lower := lowerStr user_input
  match kb.foldlM (recognizeStep store ctx input_lower) (none, 0) with
  | none => none
  | some st => st.1

/-- Outcome the external command-execution capability reports for one
dispatched command: the `subprocess.run` result, whether it raised
`TimeoutExpired`, or whether it raised some other exception (with its
message). -/
structure ExecOutcome where
  returncode : Int
  stdout : String
  stderr : String
  timed_out : Bool
  raised : Bool
  errmsg : String
  elapsed : ℚ

/-- Step-result fields written by `_execute_command_safely`. -/
structure ExecResult where
  status : String
  output : String
  return_code : Option Int
  execution_time : ℚ
deriving DecidableEq

/-- `ExpertRemediationEngine._execute_command_safely(command)`, with the
external executor abstracted as `runner`. -/
def execute_command_safely (runner : String → ExecOutcome) (command : String) : ExecResult :=
  if isPrefixL "sudo".toList command.toList then
    ⟨"skipped", "Sudo commands require manual execution", none, 0⟩
  else
    let r := runner command
    if r.timed_out then
      ⟨"timeout", "Command execution timed out after 30 seconds", none, 30⟩
    else if r.raised then
      ⟨"error", r.errmsg, none, r.elapsed⟩
    else if r.returncode = 0 then
      ⟨"completed", r.stdout, some r.returncode, r.elapsed⟩
    else
      ⟨"failed", r.stderr, some r.returncode, r.elapsed⟩

/-- The `step_info` dict built per step by
`ExpertRemediationEngine.generate_remediation_plan`. -/
structure StepInfo where
  step_number : Nat
  action : String
  command : String
  description : String
  safety_level : String
  status : String
  output : Option String
  execution_time : Option ℚ
  return_code : Option Int
  safety_check : SafetyCheckResult
deriving DecidableEq

/-- Processing of one remediation step inside
`generate_remediation_plan`: safety-check the command, and auto-execute it
only when requested, reported safe, and declared `SAFE`. -/
def process_plan_step (runner : String → ExecOutcome) (auto_execute : Bool)
    (i : Nat) (step : RemediationStep) : StepInfo :=
  let safety_result := validate_command step.command step.safety_level
  let base : StepInfo :=
    ⟨i, step.action, step.command, step.description, step.safety_level,
      "pending", none, none, none, safety_result⟩
  if auto_execute ∧ safety_result.safe ∧ step.safety_level = "SAFE" then
    let r := execute_command_safely runner step.command
    { base with
        status := r.status, output := some r.output,
        execution_time := some r.execution_time, return_code := r.return_code }
  else base

/-! ### Derived state runs and claim-side comparison functions -/

/-- One recorded `track_issue` call: issue id, wall-clock `now`, and the
occurrence data dict. -/
abbrev TrackCall : Type := String × Int × OccurrenceData

/-- Replay a sequence of `track_issue` calls against an empty store. -/
def runCalls (calls : List TrackCall) : Store :=
  calls.foldl (fun s c => track_issue s c.1 c.2.1 c.2.2) []

/-- All occurrences ever appended for one issue id by a call sequence, in
call order. -/
def appendedFor (issue_id : String) (calls : List TrackCall) : List IssueOccurrence :=
  (calls.filter (fun c => decide (c.1 = issue_id))).map (fun c => applyDefaults c.2.1 c.2.2)

/-- Claim-side cause score for C5, exactly as the claim words it:
`freq_weight*0.3 + confidence_weight*0.1 + recency_weight*0.2 +
pattern_success_rate*0.4` with `recency_weight` the bare ratio
`(occurrences with the cause among the last min(2, total)) / min(2, total)`
(no floor). -/
def causeScoreClaim (occurrences successful : List IssueOccurrence)
    (pattern_success_rate : ℚ) (cause : String) : ℚ :=
  let window := min occurrences.length 2
  let recency_weight : ℚ :=
    ((lastN window occurrences).countP (fun o => o.root_cause == cause) : ℚ) / (window : ℚ)
  ((successful.countP (fun o => o.root_cause == cause) : ℚ) / (successful.length : ℚ)) * (3/10) +
  (((successful.filter (fun o => o.root_cause == cause)).map (fun o => o.confidence_score)).sum /
     (((successful.filter (fun o => o.root_cause == cause)).map
        (fun o => o.confidence_score)).length : ℚ)) * (1/10) +
  recency_weight * (1/5) +
  pattern_success_rate * (2/5)

/-- Amended cause score for C5: as `causeScoreClaim`, except that when the
cause does not occur among the last `min(2, total)` occurrences at all the
recency weight is the code's floor value `0.1`. -/
def causeScoreAmended (occurrences successful : List IssueOccurrence)
    (pattern_success_rate : ℚ) (cause : String) : ℚ :=
  let window := min occurrences.length 2
  let k := (lastN 2 occurrences).countP (fun o => o.root_cause == cause)
  let recency_weight : ℚ := if k = 0 then 1/10 else (k : ℚ) / (window : ℚ)
  ((successful.countP (fun o => o.root_cause == cause) : ℚ) / (successful.length : ℚ)) * (3/10) +
  (((successful.filter (fun o => o.root_cause == cause)).map (fun o => o.confidence_score)).sum /
     (((successful.filter (fun o => o.root_cause == cause)).map
        (fun o => o.confidence_score)).length : ℚ)) * (1/10) +
  recency_weight * (1/5) +
  pattern_success_rate * (2/5)

/-- Claim-side decomposition of the context boost for C7 (amended): each
signal listed with its additive contribution — `+0.05` for each
availability / OS-type / pod-error signal, but `+0.10` for the disk-usage
secondary signal. -/
def context_signals_sum (p : IssuePattern) (ctx : SystemContext) : ℚ :=
  (if p.category = "Kubernetes" ∧ ctx.kubernetes_available then 1/20 else 0) +
  (if p.category = "Kubernetes" ∧ 0 < ctx.pod_errors ∧
      containsSub "pod".toList (lowerStr p.name) then 1/20 else 0) +
  (if p.category = "Ubuntu OS" ∧ ctx.os_type = "ubuntu" then 1/20 else 0) +
  (if p.category = "Ubuntu OS" ∧ p.name = "Disk Space Issues" ∧
      80 < ctx.disk_usage then 1/10 else 0) +
  (if p.category = "GlusterFS" ∧ ctx.gluster_available then 1/20 else 0)

/-! ### Concrete inputs used by witnesses and counterexamples -/

/-- Catalog pattern of the spec's worked confidence example: base 0.3,
two keywords, two regex patterns. -/
def c1pat : IssuePattern :=
  ⟨1, "Kubernetes", "Pod Crash Loop", ["pod", "crash"], [rstr "pod", rstr "zzz"],
   "HIGH", 3/10, "pod crash loop", [], []⟩

def c1input : List Char := lowerStr "pod keeps crashing"

def c2occ (t : Int) : OccurrenceData := { timestamp := some t }

/-- Four recordings for one signature whose first occurrence has the
largest timestamp (day 100) and the later three have days 1, 2, 3. -/
def c2calls : List TrackCall :=
  [("k", 0, c2occ 8640000), ("k", 0, c2occ 86400),
   ("k", 0, c2occ 172800), ("k", 0, c2occ 259200)]

def c2entry : IssueHistoryEntry :=
  (lookupEntry (runCalls c2calls) "k").getD ⟨[], defaultStats⟩

def c4occ : IssueOccurrence := ⟨0, "HIGH", 10, true, "oom", "Automated", 4/5, []⟩

def c4entry : IssueHistoryEntry := ⟨[c4occ], ⟨["oom"], 1, 10, "stable", "none"⟩⟩

def c4store : Store := [("kubernetes_pod_crash_loop", c4entry)]

def c5occX : IssueOccurrence := ⟨0, "HIGH", 5, true, "X", "Automated", 1, []⟩

def c5occF1 : IssueOccurrence := ⟨86400, "HIGH", 5, false, "Z", "Manual", 1/2, []⟩

def c5occF2 : IssueOccurrence := ⟨172800, "HIGH", 5, false, "W", "Manual", 1/2, []⟩

/-- History whose single successful cause `"X"` does not occur among the
last two occurrences. -/
def c5entry : IssueHistoryEntry :=
  ⟨[c5occX, c5occF1, c5occF2], ⟨["X"], 1/3, 5, "stable", "none"⟩⟩

def c5store : Store := [("i", c5entry)]

/-- A raw catalog entry missing the required `name` field. -/
def c6rawMissing : RawPattern :=
  { id := some 1, category := some "Kubernetes", name := none,
    keywords := some ["pod"], regex_patterns := some [rstr "pod"],
    severity := some "HIGH", confidence_base := some (1/2),
    description := some "", symptoms := some [],
    remediation_steps := some [] }

/-- A raw catalog entry with an empty keyword list (all required fields
present). -/
def c6rawEmptyKw : RawPattern :=
  { id := some 2, category := some "Kubernetes", name := some "Empty",
    keywords := some [], regex_patterns := some [rstr "pod"],
    severity := some "LOW", confidence_base := some (1/2),
    description := some "", symptoms := some [],
    remediation_steps := some [] }

def c6patEmptyKw : IssuePattern :=
  ⟨2, "Kubernetes", "Empty", [], [rstr "pod"], "LOW", 1/2, "", [], []⟩

def c7pat : IssuePattern :=
  ⟨3, "Ubuntu OS", "Disk Space Issues", ["disk"], [rstr "disk"], "HIGH", 3/10,
   "disk space", [], []⟩

/-- Context with disk usage above 80% but a non-Ubuntu OS type, so only the
disk-usage secondary signal fires. -/
def c7ctx : SystemContext := { os_type := "debian", disk_usage := 90 }

def c8occ (t : Int) : IssueOccurrence := ⟨t, "MEDIUM", 0, false, "Unknown", "Manual", 1/2, []⟩

def c9runnerA : String → ExecOutcome := fun _ => ⟨0, "ok", "", false, false, "", 1⟩

def c9runnerB : String → ExecOutcome := fun _ => ⟨1, "", "boom", false, false, "", 2⟩

/-- A sudo step declared `SAFE`, so the auto-execute branch is taken. -/
def c9step : RemediationStep :=
  ⟨"Restart service", "sudo systemctl restart nginx", "restart", "SAFE"⟩

def c10good : IssuePattern :=
  ⟨1, "Kubernetes", "Pod Crash", ["pod"], [rstr "pod"], "HIGH", 3/10, "", [], []⟩

/-- Malformed catalog pattern with an empty keyword list. -/
def c10bad : IssuePattern :=
  ⟨2, "Kubernetes", "Broken", [], [rstr "x"], "LOW", 1/2, "", [], []⟩

def c10kb : List (String × IssuePattern) := [("good", c10good), ("bad", c10bad)]

/-! ### Helper lemmas -/

theorem lastN_length_le (n : Nat) (l : List α) : (lastN n l).length ≤ n := by
  simp only [lastN, List.length_drop]
  omega

theorem lastN_of_length_le {n : Nat} {l : List α} (h : l.length ≤ n) : lastN n l = l := by
  simp [lastN, Nat.sub_eq_zero_of_le h]

theorem lastN_succ_append (n : Nat) (l : List α) (x : α) :
    lastN (n + 1) (l ++ [x]) = lastN n l ++ [x] := by
  simp only [lastN, List.length_append, List.length_cons, List.length_nil,
    List.drop_append_eq_append_drop]
  have h1 : l.length + (0 + 1) - (n + 1) = l.length - n := by omega
  have h2 : l.length - n - l.length = 0 := by omega
  rw [h1, h2]
  rfl

theorem lastN_lastN (m n : Nat) (l : List α) : lastN m (lastN n l) = lastN (min m n) l := by
  simp only [lastN, List.drop_drop, List.length_drop]
  congr 1
  omega

theorem push_lastN (H : List α) (x : α) :
    (if 3 < (lastN 3 H ++ [x]).length then lastN 3 (lastN 3 H ++ [x])
     else lastN 3 H ++ [x]) = lastN 3 (H ++ [x]) := by
  by_cases h : H.length ≤ 2
  · have h3 : H.length ≤ 3 := by omega
    have h4 : (H ++ [x]).length ≤ 3 := by simp; omega
    rw [lastN_of_length_le h3, if_neg (by simp; omega), lastN_of_length_le h4]
  · have hlen : (lastN 3 H).length = 3 := by
      simp only [lastN, List.length_drop]; omega
    rw [if_pos (by simp [hlen])]
    rw [show (3 : Nat) = 2 + 1 from rfl, lastN_succ_append, lastN_succ_append, lastN_lastN]
    norm_num

theorem lookupEntry_setEntry (s : Store) (issue_id id' : String) (e : IssueHistoryEntry) :
    lookupEntry (setEntry s issue_id e) id' =
      if id' = issue_id then some e else lookupEntry s id' := by
  induction s with
  | nil =>
      by_cases h : id' = issue_id
      · subst h; simp [setEntry, lookupEntry]
      · have h' : issue_id ≠ id' := fun a => h a.symm
        simp [setEntry, lookupEntry, h, h']
  | cons p ps ih =>
      by_cases hp : p.1 = issue_id
      · rw [show setEntry (p :: ps) issue_id e = (issue_id, e) :: ps from by
          simp [setEntry, hp]]
        by_cases hq : id' = issue_id
        · subst hq; simp [lookupEntry]
        · have h1 : issue_id ≠ id' := fun a => hq a.symm
          have h2 : p.1 ≠ id' := hp ▸ h1
          simp [lookupEntry, hq, h1, h2]
      · rw [show setEntry (p :: ps) issue_id e = p :: setEntry ps issue_id e from by
          simp [setEntry, hp]]
        by_cases hq : p.1 = id'
        · have h1 : ¬ id' = issue_id := fun a => hp (hq.trans a)
          simp [lookupEntry, hq, h1]
        · have hrw : ∀ (l : List (String × IssueHistoryEntry)),
              List.find? (fun q => decide (q.1 = id')) (p :: l) =
              List.find? (fun q => decide (q.1 = id')) l :=
            fun l => List.find?_cons_of_neg l (by simp [hq])
          simp only [lookupEntry, hrw]
          exact ih

theorem track_issue_window (s : Store) (f : String → List IssueOccurrence)
    (h0 : ∀ id, lookupEntry s id = none → f id = [])
    (h1 : ∀ id e, lookupEntry s id = some e → e.occurrences = lastN 3 (f id))
    (issue_id : String) (now : Int) (d : OccurrenceData) :
    (∀ id, lookupEntry (track_issue s issue_id now d) id = none →
        (if id = issue_id then f id ++ [applyDefaults now d] else f id) = []) ∧
    (∀ id e, lookupEntry (track_issue s issue_id now d) id = some e →
        e.occurrences =
          lastN 3 (if id = issue_id then f id ++ [applyDefaults now d] else f id)) := by
  have hocc : ((lookupEntry s issue_id).getD ⟨[], defaultStats⟩).occurrences =
      lastN 3 (f issue_id) := by
    cases hl : lookupEntry s issue_id with
    | none =>
        rw [h0 issue_id hl]
        rfl
    | some e' => simpa using h1 issue_id e' hl
  constructor
  · intro id hn
    rw [show track_issue s issue_id now d =
        setEntry s issue_id
          ⟨(if max_occurrences <
                (((lookupEntry s issue_id).getD ⟨[], defaultStats⟩).occurrences ++
                  [applyDefaults now d]).length then
              lastN max_occurrences
                (((lookupEntry s issue_id).getD ⟨[], defaultStats⟩).occurrences ++
                  [applyDefaults now d])
            else
              ((lookupEntry s issue_id).getD ⟨[], defaultStats⟩).occurrences ++
                [applyDefaults now d]),
            update_patterns_stats
              (if max_occurrences <
                  (((lookupEntry s issue_id).getD ⟨[], defaultStats⟩).occurrences ++
                    [applyDefaults now d]).length then
                lastN max_occurrences
                  (((lookupEntry s issue_id).getD ⟨[], defaultStats⟩).occurrences ++
                    [applyDefaults now d])
              else
                ((lookupEntry s issue_id).getD ⟨[], defaultStats⟩).occurrences ++
                  [applyDefaults now d])
              ((lookupEntry s issue_id).getD ⟨[], defaultStats⟩).patterns⟩ from rfl,
      lookupEntry_setEntry] at hn
    by_cases hid : id = issue_id
    · rw [if_pos hid] at hn; cases hn
    · rw [if_neg hid] at hn
      rw [if_neg hid]
      exact h0 id hn
  · intro id e he
    rw [show track_issue s issue_id now d =
        setEntry s issue_id
          ⟨(if max_occurrences <
                (((lookupEntry s issue_id).getD ⟨[], defaultStats⟩).occurrences ++
                  [applyDefaults now d]).length then
              lastN max_occurrences
                (((lookupEntry s issue_id).getD ⟨[], defaultStats⟩).occurrences ++
                  [applyDefaults now d])
            else
              ((lookupEntry s issue_id).getD ⟨[], defaultStats⟩).occurrences ++
                [applyDefaults now d]),
            update_patterns_stats
              (if max_occurrences <
                  (((lookupEntry s issue_id).getD ⟨[], defaultStats⟩).occurrences ++
                    [applyDefaults now d]).length then
                lastN max_occurrences
                  (((lookupEntry s issue_id).getD ⟨[], defaultStats⟩).occurrences ++
                    [applyDefaults now d])
              else
                ((lookupEntry s issue_id).getD ⟨[], defaultStats⟩).occurrences ++
                  [applyDefaults now d])
              ((lookupEntry s issue_id).getD ⟨[], defaultStats⟩).patterns⟩ from rfl,
      lookupEntry_setEntry] at he
    by_cases hid : id = issue_id
    · rw [if_pos hid] at he
      rw [if_pos hid, hid]
      cases he
      simp only [hocc, max_occurrences]
      exact push_lastN (f issue_id) (applyDefaults now d)
    · rw [if_neg hid] at he
      rw [if_neg hid]
      exact h1 id e he

theorem runCalls_window_aux :
    ∀ (calls : List TrackCall) (s : Store) (f : String → List IssueOccurrence),
      (∀ id, lookupEntry s id = none → f id = []) →
      (∀ id e, lookupEntry s id = some e → e.occurrences = lastN 3 (f id)) →
      ∀ id e,
        lookupEntry (calls.foldl (fun st c => track_issue st c.1 c.2.1 c.2.2) s) id = some e →
        e.occurrences = lastN 3 (f id ++ appendedFor id calls) := by
  intro calls
  induction calls with
  | nil =>
      intro s f h0 h1 id e he
      simpa [appendedFor] using h1 id e he
  | cons c cs ih =>
      intro s f h0 h1 id e he
      obtain ⟨g0, g1⟩ := track_issue_window s f h0 h1 c.1 c.2.1 c.2.2
      have := ih (track_issue s c.1 c.2.1 c.2.2)
        (fun id' => if id' = c.1 then f id' ++ [applyDefaults c.2.1 c.2.2] else f id')
        g0 g1 id e (by rw [List.foldl_cons] at he; exact he)
      rw [this]
      by_cases hid : id = c.1
      · subst hid
        simp [appendedFor, List.filter_cons, List.append_assoc]
      · have hc : ¬ c.1 = id := fun a => hid a.symm
        simp [appendedFor, List.filter_cons, hc, hid]

theorem foldlM_option_none {α β : Type} (g : β → α → Option β) (l : List α) (x : α)
    (hx : x ∈ l) (hnone : ∀ b, g b x = none) : ∀ b, l.foldlM g b = none := by
  induction l with
  | nil => cases hx
  | cons y ys ih =>
      intro b
      simp only [List.foldlM_cons]
      rcases List.mem_cons.mp hx with h | h
      · subst h
        rw [hnone b]
        rfl
      · cases hy : g b y with
        | none => rfl
        | some b' => simpa [hy] using ih h b'

theorem loadPatterns_none (l : List (String × RawPattern)) (x : String × RawPattern)
    (hx : x ∈ l) (hnone : buildPattern x.2 = none) : loadPatterns l = none := by
  induction l with
  | nil => cases hx
  | cons y ys ih =>
      rcases List.mem_cons.mp hx with h | h
      · subst h
        simp [loadPatterns, hnone]
      · cases hy : buildPattern y.2 with
        | none => simp [loadPatterns, hy]
        | some p => simp [loadPatterns, hy, ih h]

theorem find?_none_of_any_false {α : Type} {p : α → Bool} {l : List α}
    (h : l.any p = false) : l.find? p = none := by
  rw [List.find?_eq_none]
  intro x hx
  have := List.any_eq_false.mp h x hx
  simpa using this

theorem mem_dedupFirst_aux (a : String) :
    ∀ (n : Nat) (l : List String), l.length ≤ n → (a ∈ dedupFirst l ↔ a ∈ l) := by
  intro n
  induction n with
  | zero =>
      intro l hl
      have : l = [] := List.eq_nil_of_length_eq_zero (by omega)
      subst this
      simp [dedupFirst]
  | succ n ih =>
      intro l hl
      cases l with
      | nil => simp [dedupFirst]
      | cons x xs =>
          rw [show dedupFirst (x :: xs) =
              x :: dedupFirst (xs.filter (fun y => decide (y ≠ x))) from by
            rw [dedupFirst]]
          have hlen : (xs.filter (fun y => decide (y ≠ x))).length ≤ n := by
            have := List.length_filter_le (fun y => decide (y ≠ x)) xs
            simp only [List.length_cons] at hl
            omega
          have hih := ih _ hlen
          by_cases hax : a = x
          · simp [hax]
          · simp only [List.mem_cons, hih, List.mem_filter, hax, false_or]
            constructor
            · exact fun h => h.1
            · exact fun h => ⟨h, by simpa using hax⟩

theorem mem_dedupFirst (a : String) (l : List String) : a ∈ dedupFirst l ↔ a ∈ l :=
  mem_dedupFirst_aux a l.length l le_rfl

theorem dedupFirst_ne_nil {l : List String} (h : l ≠ []) : dedupFirst l ≠ [] := by
  cases l with
  | nil => exact absurd rfl h
  | cons x xs =>
      rw [show dedupFirst (x :: xs) =
          x :: dedupFirst (xs.filter (fun y => decide (y ≠ x))) from by rw [dedupFirst]]
      exact List.cons_ne_nil _ _

theorem maxBy_spec {α : Type} (f : α → ℚ) :
    ∀ (l : List α), l ≠ [] → ∃ m, maxBy f l = some m ∧ m ∈ l ∧ ∀ x ∈ l, f x ≤ f m := by
  intro l
  induction l with
  | nil => intro h; exact absurd rfl h
  | cons x xs ih =>
      intro _
      cases hmb : maxBy f xs with
      | none =>
          have hnil : xs = [] := by
            cases xs with
            | nil => rfl
            | cons y ys =>
                exfalso
                cases hmb2 : maxBy f ys with
                | none => simp [maxBy, hmb2] at hmb
                | some v =>
                    rw [show maxBy f (y :: ys) = if f v > f y then some v else some y from by
                      simp [maxBy, hmb2]] at hmb
                    by_cases hv : f v > f y <;> simp [hv] at hmb
          subst hnil
          refine ⟨x, by simp [maxBy], List.mem_cons_self _ _, ?_⟩
          intro z hz
          rcases List.mem_cons.mp hz with h | h
          · subst h; exact le_refl _
          · cases h
      | some m =>
          have hxs : xs ≠ [] := by
            intro h
            subst h
            simp [maxBy] at hmb
          obtain ⟨m', hm', hmem, hle⟩ := ih hxs
          have hmm : m' = m := by
            rw [hm'] at hmb
            exact Option.some.inj hmb
          subst hmm
          by_cases hgt : f m' > f x
          · refine ⟨m', by simp [maxBy, hm', hgt], List.mem_cons_of_mem _ hmem, ?_⟩
            intro z hz
            rcases List.mem_cons.mp hz with h | h
            · subst h; exact le_of_lt hgt
            · exact hle z h
          · refine ⟨x, by simp [maxBy, hm', hgt], List.mem_cons_self _ _, ?_⟩
            intro z hz
            rcases List.mem_cons.mp hz with h | h
            · subst h; exact le_refl _
            · exact le_trans (hle z h) (not_lt.mp hgt)

theorem context_relevance_nonneg (p : IssuePattern) (ctx : SystemContext) :
    0 ≤ calculate_context_relevance p ctx := by
  unfold calculate_context_relevance
  refine le_min (by norm_num) ?_
  split_ifs <;> norm_num

theorem context_relevance_le (p : IssuePattern) (ctx : SystemContext) :
    calculate_context_relevance p ctx ≤ 1/10 := by
  unfold calculate_context_relevance
  exact min_le_left _ _

theorem causeScore_nonneg (occurrences successful : List IssueOccurrence)
    (sr : ℚ) (cause : String)
    (hconf : ∀ o ∈ successful, 0 ≤ o.confidence_score) (hsr : 0 ≤ sr) :
    0 ≤ causeScore occurrences successful sr cause := by
  unfold causeScore calculate_recency_weight
  simp only [learning_weights]
  have h1 : (0:ℚ) ≤
      ((successful.countP (fun o => o.root_cause == cause) : ℚ) /
        (successful.length : ℚ)) * (3/10) := by positivity
  have h2 : (0:ℚ) ≤
      (((successful.filter (fun o => o.root_cause == cause)).map
          (fun o => o.confidence_score)).sum /
        (((successful.filter (fun o => o.root_cause == cause)).map
          (fun o => o.confidence_score)).length : ℚ)) * (1/10) := by
    have hsum : (0:ℚ) ≤
        ((successful.filter (fun o => o.root_cause == cause)).map
          (fun o => o.confidence_score)).sum := by
      apply List.sum_nonneg
      intro q hq
      obtain ⟨o, ho, rfl⟩ := List.mem_map.mp hq
      exact hconf o (List.mem_of_mem_filter ho)
    positivity
  have h3 : (0:ℚ) ≤
      (if ((lastN 2 occurrences).filter (fun o => o.root_cause == cause)).isEmpty then
        (1:ℚ)/10
      else (((lastN 2 occurrences).filter (fun o => o.root_cause == cause)).length : ℚ) /
        ((min occurrences.length 2 : Nat) : ℚ)) * (1/5) := by
    split_ifs <;> positivity
  have h4 : (0:ℚ) ≤ sr * (2/5) := by positivity
  linarith

theorem causeScore_eq_amended (occurrences successful : List IssueOccurrence)
    (sr : ℚ) (cause : String) :
    causeScore occurrences successful sr cause =
      causeScoreAmended occurrences successful sr cause := by
  unfold causeScore causeScoreAmended calculate_recency_weight
  simp only [learning_weights, List.countP_eq_length_filter, List.isEmpty_iff_length_eq_zero]

theorem calculate_confidence_closed_form (store : Store) (p : IssuePattern)
    (input : List Char) (ctx : Option SystemContext)
    (h1 : p.keywords ≠ []) (h2 : p.regex_patterns ≠ []) :
    calculate_confidence store p input ctx =
      some (min 1 (p.confidence_base
        + (2/5) * ((p.keywords.countP (fun kw => containsSub (lowerStr kw) input) : ℚ) /
            (p.keywords.length : ℚ))
        + (3/10) * ((p.regex_patterns.countP (fun r => rsearch r input) : ℚ) /
            (p.regex_patterns.length : ℚ))
        + (if has_similar_issue store (pattern_signature p) then 3/20 else 0)
        + (match ctx with
           | none => 0
           | some c => calculate_context_relevance p c))) := by
  simp only [calculate_confidence]
  rw [if_neg (by simpa using h1), if_neg (by simpa using h2)]
  congr 1
  congr 1
  simp only [confidence_adjustments]
  ring

/-! ### Claim theorems -/

/-- C1: for every catalog pattern with non-empty keyword and regex lists,
the matcher's confidence equals
`min(1.0, base_confidence + 0.4*(matched_keywords/total_keywords) +
0.3*(matched_regex/total_regex) + historical_boost + context_boost)`,
with `historical_boost = 0.15` exactly when the History Store has at least
one occurrence for the pattern's signature.  The witness instantiates the
spec's worked example yielding 0.85. -/
theorem c1_confidence_formula (store : Store) (p : IssuePattern) (input : List Char)
    (ctx : Option SystemContext) (h1 : p.keywords ≠ []) (h2 : p.regex_patterns ≠ []) :
    calculate_confidence store p input ctx =
      some (min 1 (p.confidence_base
        + (2/5) * ((p.keywords.countP (fun kw => containsSub (lowerStr kw) input) : ℚ) /
            (p.keywords.length : ℚ))
        + (3/10) * ((p.regex_patterns.countP (fun r => rsearch r input) : ℚ) /
            (p.regex_patterns.length : ℚ))
        + (if has_similar_issue store (pattern_signature p) then 3/20 else 0)
        + (match ctx with
           | none => 0
           | some c => calculate_context_relevance p c))) :=
  calculate_confidence_closed_form store p input ctx h1 h2

/-- Witness for C1: the spec's worked example — base 0.3, both of 2 keywords
present, 1 of 2 regex patterns matching, no history, no context — computes
confidence 0.85. -/
theorem c1_confidence_formula_witness :
    c1pat.keywords ≠ [] ∧ c1pat.regex_patterns ≠ [] ∧
    calculate_confidence [] c1pat c1input none = some (17/20) := by
  refine ⟨by decide, by decide, ?_⟩
  rw [c1_confidence_formula [] c1pat c1input none (by decide) (by decide)]
  rw [show (c1pat.keywords.countP (fun kw => containsSub (lowerStr kw) c1input)) = 2 from by
    decide]
  rw [show (c1pat.regex_patterns.countP (fun r => rsearch r c1input)) = 1 from by decide]
  rw [show has_similar_issue [] (pattern_signature c1pat) = false from rfl]
  norm_num [c1pat, min_def]

/-- C3: `validate_command` classifies with this precedence: any dangerous
regex match forces `safe=false`, `risk=HIGH`, confirmation required,
regardless of the declared level; otherwise a safe-allowlist prefix match
(case-insensitive) forces `safe=true`, `risk=SAFE` even for a declared
MEDIUM level; otherwise the declared level decides (SAFE → safe,
MEDIUM → safe but confirm, HIGH → unsafe). -/
theorem c3_validate_precedence :
    (∀ cmd lvl, matchesDangerous cmd = true →
        (validate_command cmd lvl).safe = false ∧
        (validate_command cmd lvl).risk_level = "HIGH" ∧
        (validate_command cmd lvl).requires_confirmation = true) ∧
    (∀ cmd lvl, matchesDangerous cmd = false → matchesSafePrefixList cmd = true →
        validate_command cmd lvl = ⟨true, "Command matches safe pattern", "SAFE", false⟩) ∧
    (∀ cmd, matchesDangerous cmd = false → matchesSafePrefixList cmd = false →
        validate_command cmd "SAFE" =
          ⟨true, "Marked as safe by pattern definition", "SAFE", false⟩ ∧
        validate_command cmd "MEDIUM" =
          ⟨true, "Medium risk command, requires confirmation", "MEDIUM", true⟩ ∧
        validate_command cmd "HIGH" =
          ⟨false, "High risk command, manual execution required", "HIGH", true⟩) := by
  refine ⟨?_, ?_, ?_⟩
  · intro cmd lvl h
    have hs : (dangerous_patterns.find? (fun pr => rsearch pr.2 (lowerStr cmd))).isSome := by
      rw [List.find?_isSome]
      obtain ⟨x, hx, hpx⟩ := List.any_eq_true.mp h
      exact ⟨x, hx, hpx⟩
    obtain ⟨pr, hpr⟩ := Option.isSome_iff_exists.mp hs
    unfold validate_command
    rw [hpr]
    exact ⟨rfl, rfl, rfl⟩
  · intro cmd lvl h hp
    unfold validate_command
    rw [find?_none_of_any_false h]
    simp [hp]
  · intro cmd h hp
    unfold validate_command
    rw [find?_none_of_any_false h]
    refine ⟨?_, ?_, ?_⟩ <;> simp [hp]

/-- Witness for C3: `"rm -rf /"` is classified HIGH/unsafe even when
declared SAFE, and `"kubectl get pods"` declared MEDIUM is classified SAFE
through the allowlist prefix. -/
theorem c3_validate_precedence_witness :
    matchesDangerous "rm -rf /" = true ∧
    (validate_command "rm -rf /" "SAFE").safe = false ∧
    (validate_command "rm -rf /" "SAFE").risk_level = "HIGH" ∧
    matchesDangerous "kubectl get pods" = false ∧
    matchesSafePrefixList "kubectl get pods" = true ∧
    validate_command "kubectl get pods" "MEDIUM" =
      ⟨true, "Command matches safe pattern", "SAFE", false⟩ :=
  ⟨by decide,
   (c3_validate_precedence.1 "rm -rf /" "SAFE" (by decide)).1,
   (c3_validate_precedence.1 "rm -rf /" "SAFE" (by decide)).2.1,
   by decide,
   by decide,
   c3_validate_precedence.2.1 "kubectl get pods" "MEDIUM" (by decide) (by decide)⟩

/-- C2 (amended): after any sequence of `track_issue` calls against an
empty store, every signature's occurrence list holds at most 3 occurrences
and equals exactly the 3 most recently **appended** occurrences for that
signature (FIFO by insertion order) — which are the 3 most recent by
timestamp only when occurrences are recorded in nondecreasing timestamp
order. -/
theorem c2_occurrence_window (calls : List TrackCall) (issue_id : String)
    (e : IssueHistoryEntry) (h : lookupEntry (runCalls calls) issue_id = some e) :
    e.occurrences.length ≤ 3 ∧ e.occurrences = lastN 3 (appendedFor issue_id calls) := by
  have := runCalls_window_aux calls [] (fun _ => [])
    (fun _ _ => rfl)
    (fun id e' he' => by simp [lookupEntry] at he')
    issue_id e h
  simp only [List.nil_append] at this
  exact ⟨this ▸ lastN_length_le 3 _, this⟩

/-- Witness for C2 (amended): a concrete four-recording run retains the
last three appended occurrences. -/
theorem c2_occurrence_window_witness :
    c2entry.occurrences.length ≤ 3 ∧
    c2entry.occurrences = lastN 3 (appendedFor "k" c2calls) :=
  c2_occurrence_window c2calls "k" c2entry rfl

/-- Counterexample for C2 as stated: with an out-of-order recording whose
first occurrence has the largest timestamp (day 100) followed by days
1, 2, 3, the retained occurrences are the last three appended (days 1, 2, 3),
not the 3 most recent by timestamp — the day-100 occurrence was appended
and has a larger timestamp than every retained one. -/
theorem c2_occurrence_window_counterexample :
    (lookupEntry (runCalls c2calls) "k").map (fun e => e.occurrences.map (fun o => o.timestamp)) =
      some [86400, 172800, 259200] ∧
    (8640000 : Int) ∈ (appendedFor "k" c2calls).map (fun o => o.timestamp) ∧
    ¬ (8640000 : Int) ∈ ([86400, 172800, 259200] : List Int) ∧
    (86400 : Int) < 8640000 ∧ (172800 : Int) < 8640000 ∧ (259200 : Int) < 8640000 := by
  refine ⟨by decide, by decide, by decide, by decide, by decide, by decide⟩

/-- C8: for a history window with at least two occurrences whose last two
timestamps are a whole number `d` of days apart, the derived
`frequency_trend` is `"increasing"` when `d < 7`, `"decreasing"` when
`d > 30`, and `"stable"` otherwise — determined solely by that gap. -/
theorem c8_frequency_trend (l : List IssueOccurrence) (o₁ o₂ : IssueOccurrence)
    (old : IssuePatternStats) (d : Int)
    (h : o₂.timestamp - o₁.timestamp = d * 86400) :
    (update_patterns_stats (l ++ [o₁, o₂]) old).frequency_trend =
      (if d < 7 then "increasing" else if d > 30 then "decreasing" else "stable") := by
  have hlast : lastN 2 (l ++ [o₁, o₂]) = [o₁, o₂] := by
    rw [show l ++ [o₁, o₂] = (l ++ [o₁]) ++ [o₂] from by simp]
    rw [show (2 : Nat) = 1 + 1 from rfl, lastN_succ_append, lastN_succ_append]
    simp [lastN]
  have hd : daysBetween o₁.timestamp o₂.timestamp = d := by
    unfold daysBetween
    rw [h]
    exact Int.mul_fdiv_cancel d (by norm_num)
  simp only [update_patterns_stats]
  rw [if_neg (by simp)]
  simp only [hlast, hd]

/-- Witness for C8: two occurrences exactly 3 days apart classify as
`"increasing"`. -/
theorem c8_frequency_trend_witness :
    (c8occ 259200).timestamp - (c8occ 0).timestamp = 3 * 86400 ∧
    (update_patterns_stats [c8occ 0, c8occ 259200] defaultStats).frequency_trend =
      "increasing" := by
  refine ⟨by decide, ?_⟩
  have := c8_frequency_trend [] (c8occ 0) (c8occ 259200) defaultStats 3 (by decide)
  simpa using this

/-- C9: a command starting with `sudo` is never dispatched to the external
command-execution capability — `_execute_command_safely` returns status
`"skipped"` with execution time 0 for every executor, and the
auto-execution path of `generate_remediation_plan` produces a step result
independent of the executor, even for a step whose safety check reports
SAFE with auto-execution requested. -/
theorem c9_sudo_never_dispatched (command : String)
    (h : isPrefixL "sudo".toList command.toList = true) :
    (∀ runner, execute_command_safely runner command =
      ⟨"skipped", "Sudo commands require manual execution", none, 0⟩) ∧
    (∀ runner runner' (auto_execute : Bool) (i : Nat) (step : RemediationStep),
      step.command = command →
      process_plan_step runner auto_execute i step =
        process_plan_step runner' auto_execute i step) := by
  have hskip : ∀ runner, execute_command_safely runner command =
      ⟨"skipped", "Sudo commands require manual execution", none, 0⟩ := by
    intro runner
    unfold execute_command_safely
    rw [if_pos h]
  refine ⟨hskip, ?_⟩
  intro r r' auto i step hc
  simp only [process_plan_step]
  split_ifs with hcond
  · rw [hc, hskip r, hskip r']
  · rfl

/-- Witness for C9: a concrete `sudo` step declared SAFE is skipped with
time 0 under auto-execution, identically for two different executors. -/
theorem c9_sudo_never_dispatched_witness :
    isPrefixL "sudo".toList "sudo systemctl restart nginx".toList = true ∧
    execute_command_safely c9runnerA "sudo systemctl restart nginx" =
      ⟨"skipped", "Sudo commands require manual execution", none, 0⟩ ∧
    process_plan_step c9runnerA true 1 c9step = process_plan_step c9runnerB true 1 c9step :=
  ⟨by decide,
   (c9_sudo_never_dispatched "sudo systemctl restart nginx" (by decide)).1 c9runnerA,
   (c9_sudo_never_dispatched "sudo systemctl restart nginx" (by decide)).2
     c9runnerA c9runnerB true 1 c9step rfl⟩

/-- C10: if the loaded knowledge base contains any pattern with an empty
keyword list or an empty regex list, `recognize_issue_pattern` returns
`None` for every input — the `ZeroDivisionError` raised while scoring that
pattern is caught at the function boundary, discarding matches against all
other patterns. -/
theorem c10_empty_lists_poison_matching (kb : List (String × IssuePattern)) (store : Store)
    (user_input : String) (ctx : Option SystemContext) (k : String) (p : IssuePattern)
    (hmem : (k, p) ∈ kb) (hbad : p.keywords = [] ∨ p.regex_patterns = []) :
    recognize_issue_pattern kb store user_input ctx = none := by
  have hcc : calculate_confidence store p (lowerStr user_input) ctx = none := by
    simp only [calculate_confidence]
    rcases hbad with hb | hb
    · rw [if_pos (by simp [hb])]
    · by_cases hk : p.keywords.length = 0
      · rw [if_pos hk]
      · rw [if_neg hk, if_pos (by simp [hb])]
  have hstep : ∀ st, recognizeStep store ctx (lowerStr user_input) st (k, p) = none := by
    intro st
    simp only [recognizeStep, hcc]
  simp only [recognize_issue_pattern]
  rw [foldlM_option_none (recognizeStep store ctx (lowerStr user_input)) kb (k, p)
    hmem hstep (none, 0)]

/-- Witness for C10: a knowledge base holding a matching healthy pattern
plus one empty-keyword pattern yields no match at all, although the healthy
pattern alone yields one. -/
theorem c10_empty_lists_poison_matching_witness :
    (("bad", c10bad) ∈ c10kb ∧ (c10bad.keywords = [] ∨ c10bad.regex_patterns = [])) ∧
    recognize_issue_pattern c10kb [] "pod" none = none ∧
    ¬ recognize_issue_pattern [("good", c10good)] [] "pod" none = none := by
  refine ⟨⟨List.mem_cons_of_mem _ (List.mem_cons_self _ _), Or.inl rfl⟩,
    c10_empty_lists_poison_matching c10kb [] "pod" none "bad" c10bad
      (List.mem_cons_of_mem _ (List.mem_cons_self _ _)) (Or.inl rfl), ?_⟩
  have hconf : calculate_confidence [] c10good (lowerStr "pod") none = some 1 := by
    rw [calculate_confidence_closed_form [] c10good (lowerStr "pod") none
      (by decide) (by decide)]
    rw [show (c10good.keywords.countP
      (fun kw => containsSub (lowerStr kw) (lowerStr "pod"))) = 1 from by decide]
    rw [show (c10good.regex_patterns.countP (fun r => rsearch r (lowerStr "pod"))) = 1 from by
      decide]
    rw [show has_similar_issue [] (pattern_signature c10good) = false from rfl]
    norm_num [c10good, min_def]
  simp only [recognize_issue_pattern]
  simp only [List.foldlM_cons, List.foldlM_nil]
  simp only [recognizeStep, hconf]
  rw [if_pos (by norm_num)]
  simp

/-- C7 (amended): the context boost is additive over the per-category
signals, each availability / OS-type / pod-error signal contributing
`+0.05` but the disk-usage secondary signal contributing `+0.10`, and the
total is capped so it never exceeds `0.10` (and is never negative). -/
theorem c7_context_boost_amended :
    ∀ (p : IssuePattern) (ctx : SystemContext),
      calculate_context_relevance p ctx = min (1/10) (context_signals_sum p ctx) ∧
      calculate_context_relevance p ctx ≤ 1/10 ∧
      0 ≤ calculate_context_relevance p ctx := by
  intro p ctx
  refine ⟨?_, context_relevance_le p ctx, context_relevance_nonneg p ctx⟩
  unfold calculate_context_relevance context_signals_sum
  by_cases h1 : p.category = "Kubernetes"
  · have h2 : ¬ p.category = "Ubuntu OS" := by rw [h1]; decide
    have h3 : ¬ p.category = "GlusterFS" := by rw [h1]; decide
    simp [h1, h2, h3]
  · by_cases h2 : p.category = "Ubuntu OS"
    · have h3 : ¬ p.category = "GlusterFS" := by rw [h2]; decide
      simp [h1, h2, h3]
    · by_cases h3 : p.category = "GlusterFS"
      · simp [h1, h2, h3]
      · simp [h1, h2, h3]

/-- Counterexample for C7 as stated: for the Ubuntu OS "Disk Space Issues"
pattern with disk usage above 80% but a non-Ubuntu OS type, the single
firing signal contributes `0.10`, not the claimed `0.05` per signal. -/
theorem c7_context_boost_counterexample :
    calculate_context_relevance c7pat c7ctx = 1/10 ∧ ¬ ((1 : ℚ)/10 = 1/20) := by
  constructor
  · unfold calculate_context_relevance
    rw [if_neg (show ¬ c7pat.category = "Kubernetes" from by decide)]
    rw [if_pos (show c7pat.category = "Ubuntu OS" from rfl)]
    rw [if_neg (show ¬ c7ctx.os_type = "ubuntu" from by decide)]
    rw [if_pos (show c7pat.name = "Disk Space Issues" ∧ (80 : ℚ) < c7ctx.disk_usage from
      ⟨rfl, by norm_num [c7ctx]⟩)]
    norm_num [min_def]
  · norm_num

theorem buildPattern_eq_none_of_missing (r : RawPattern)
    (hmiss : r.id = none ∨ r.category = none ∨ r.name = none ∨ r.keywords = none ∨
      r.regex_patterns = none ∨ r.severity = none ∨ r.confidence_base = none ∨
      r.description = none ∨ r.remediation_steps = none) :
    buildPattern r = none := by
  cases h1 : r.id with
  | none => simp [buildPattern, h1]
  | some v1 =>
    cases h2 : r.category with
    | none => simp [buildPattern, h1, h2]
    | some v2 =>
      cases h3 : r.name with
      | none => simp [buildPattern, h1, h2, h3]
      | some v3 =>
        cases h4 : r.keywords with
        | none => simp [buildPattern, h1, h2, h3, h4]
        | some v4 =>
          cases h5 : r.regex_patterns with
          | none => simp [buildPattern, h1, h2, h3, h4, h5]
          | some v5 =>
            cases h6 : r.severity with
            | none => simp [buildPattern, h1, h2, h3, h4, h5, h6]
            | some v6 =>
              cases h7 : r.confidence_base with
              | none => simp [buildPattern, h1, h2, h3, h4, h5, h6, h7]
              | some v7 =>
                cases h8 : r.description with
                | none => simp [buildPattern, h1, h2, h3, h4, h5, h6, h7, h8]
                | some v8 =>
                  cases h9 : r.remediation_steps with
                  | none => simp [buildPattern, h1, h2, h3, h4, h5, h6, h7, h8, h9]
                  | some v9 =>
                      exfalso
                      rcases hmiss with h | h | h | h | h | h | h | h | h <;> simp_all

/-- C6 (amended): on a missing or malformed catalog source (a pattern
missing any required field — id, category, name, keywords, regex_patterns,
severity, confidence_base, description or remediation_steps) the loader
catches the error and returns the empty pattern map instead of raising,
and a pattern whose keyword or regex list is empty is not treated as
malformed: with all required fields present it loads unchanged, all
fields preserved, whatever its keyword and regex lists. -/
theorem c6_load_amended :
    load_knowledge_base none = [] ∧
    (∀ (ps : List (String × RawPattern)) (k : String) (r : RawPattern),
        (k, r) ∈ ps →
        (r.id = none ∨ r.category = none ∨ r.name = none ∨ r.keywords = none ∨
          r.regex_patterns = none ∨ r.severity = none ∨ r.confidence_base = none ∨
          r.description = none ∨ r.remediation_steps = none) →
        load_knowledge_base (some ps) = []) ∧
    (∀ (i : Int) (cat nm sev desc : String) (cb : ℚ) (kws : List String)
        (rx : List Regex) (sym : Option (List String)) (steps : List RemediationStep),
        buildPattern ⟨some i, some cat, some nm, some kws, some rx, some sev, some cb,
          some desc, sym, some steps⟩ =
        some ⟨i, cat, nm, kws, rx, sev, cb, desc, sym.getD [], steps⟩) := by
  refine ⟨rfl, ?_, fun i cat nm sev desc cb kws rx sym steps => rfl⟩
  intro ps k r hmem hmiss
  simp only [load_knowledge_base]
  rw [loadPatterns_none ps (k, r) hmem (buildPattern_eq_none_of_missing r hmiss)]

/-- Witness for C6 (amended): a source whose only pattern misses a
required field (`name`) loads to the empty map, a full record with an
empty keyword list builds unchanged, and so does one with an empty regex
list but nonempty keywords. -/
theorem c6_load_amended_witness :
    (("p1", c6rawMissing) ∈ [("p1", c6rawMissing)] ∧ c6rawMissing.name = none) ∧
    load_knowledge_base (some [("p1", c6rawMissing)]) = [] ∧
    buildPattern ⟨some 2, some "Kubernetes", some "Empty", some [], some [rstr "pod"],
      some "LOW", some (1/2), some "", some [], some []⟩ =
      some ⟨2, "Kubernetes", "Empty", [], [rstr "pod"], "LOW", 1/2, "", [], []⟩ ∧
    buildPattern ⟨some 3, some "Kubernetes", some "EmptyRx", some ["pod"], some [],
      some "LOW", some (1/2), some "", some [], some []⟩ =
      some ⟨3, "Kubernetes", "EmptyRx", ["pod"], [], "LOW", 1/2, "", [], []⟩ :=
  ⟨⟨List.mem_cons_self _ _, rfl⟩,
   c6_load_amended.2.1 [("p1", c6rawMissing)] "p1" c6rawMissing (List.mem_cons_self _ _)
     (Or.inr (Or.inr (Or.inl rfl))),
   c6_load_amended.2.2 2 "Kubernetes" "Empty" "LOW" "" (1/2) [] [rstr "pod"] (some []) [],
   c6_load_amended.2.2 3 "Kubernetes" "EmptyRx" "LOW" "" (1/2) ["pod"] [] (some []) []⟩

/-- Counterexample for C6 as stated: a malformed source (missing `name`)
does not fail with a LoadError — the loader returns an (empty) pattern
map — and a pattern with an empty keyword list is not rejected: it loads
into the returned map. -/
theorem c6_load_counterexample :
    load_knowledge_base (some [("p1", c6rawMissing)]) = [] ∧
    load_knowledge_base (some [("p2", c6rawEmptyKw)]) = [("p2", c6patEmptyKw)] ∧
    c6patEmptyKw.keywords = [] :=
  ⟨rfl, rfl, rfl⟩

theorem predict_root_cause_spec (s : Store) (issue_id : String) (e : IssueHistoryEntry)
    (hl : lookupEntry s issue_id = some e)
    (hs : e.occurrences.filter (fun o => o.success) ≠ []) :
    ∃ best,
      predict_root_cause s issue_id =
        (best, min (causeScoreAmended e.occurrences
          (e.occurrences.filter (fun o => o.success)) e.patterns.success_rate best) (19/20)) ∧
      best ∈ (e.occurrences.filter (fun o => o.success)).map (fun o => o.root_cause) ∧
      ∀ c ∈ (e.occurrences.filter (fun o => o.success)).map (fun o => o.root_cause),
        causeScoreAmended e.occurrences (e.occurrences.filter (fun o => o.success))
          e.patterns.success_rate c ≤
        causeScoreAmended e.occurrences (e.occurrences.filter (fun o => o.success))
          e.patterns.success_rate best := by
  have hocc : ¬ e.occurrences.isEmpty = true := by
    intro hemp
    apply hs
    have he : e.occurrences = [] := by simpa using hemp
    rw [he]
    rfl
  have hsuc : ¬ (e.occurrences.filter (fun o => o.success)).isEmpty = true := by
    intro hemp
    exact hs (by simpa using hemp)
  have hmapne : (e.occurrences.filter (fun o => o.success)).map (fun o => o.root_cause) ≠ [] := by
    intro hmap
    exact hs (List.map_eq_nil_iff.mp hmap)
  obtain ⟨best, hmb, hbmem, hble⟩ := maxBy_spec
    (causeScore e.occurrences (e.occurrences.filter (fun o => o.success)) e.patterns.success_rate)
    (dedupFirst ((e.occurrences.filter (fun o => o.success)).map (fun o => o.root_cause)))
    (dedupFirst_ne_nil hmapne)
  refine ⟨best, ?_, (mem_dedupFirst _ _).mp hbmem, ?_⟩
  · simp only [predict_root_cause, hl]
    rw [if_neg hocc, if_neg hsuc, hmb]
    show (best, min (causeScore e.occurrences (e.occurrences.filter (fun o => o.success))
      e.patterns.success_rate best) (19/20)) = _
    rw [causeScore_eq_amended]
  · intro c hc
    rw [← causeScore_eq_amended, ← causeScore_eq_amended]
    exact hble c ((mem_dedupFirst _ _).mpr hc)

/-- C5 (amended): for every signature with at least one successful
occurrence, `predict_root_cause` restricts to successful occurrences and
returns a maximum-scoring cause under
`freq_weight*0.3 + confidence_weight*0.1 + recency_weight*0.2 +
pattern_success_rate*0.4`, capping the reported score at 0.95 — where
`recency_weight` is the ratio of the cause's occurrences among the last
`min(2, total)` of **all** occurrences when that count is nonzero, and the
floor value `0.1` when the cause is absent from that window (the code's
floor, which the original claim omits). -/
theorem c5_predict_amended (s : Store) (issue_id : String) (e : IssueHistoryEntry)
    (hl : lookupEntry s issue_id = some e)
    (hs : e.occurrences.filter (fun o => o.success) ≠ []) :
    ∃ best,
      predict_root_cause s issue_id =
        (best, min (causeScoreAmended e.occurrences
          (e.occurrences.filter (fun o => o.success)) e.patterns.success_rate best) (19/20)) ∧
      best ∈ (e.occurrences.filter (fun o => o.success)).map (fun o => o.root_cause) ∧
      ∀ c ∈ (e.occurrences.filter (fun o => o.success)).map (fun o => o.root_cause),
        causeScoreAmended e.occurrences (e.occurrences.filter (fun o => o.success))
          e.patterns.success_rate c ≤
        causeScoreAmended e.occurrences (e.occurrences.filter (fun o => o.success))
          e.patterns.success_rate best :=
  predict_root_cause_spec s issue_id e hl hs

/-- Witness for C5 (amended): on the concrete three-occurrence history the
prediction returns the only successful cause `"X"` with the amended score
capped at 0.95. -/
theorem c5_predict_amended_witness :
    predict_root_cause c5store "i" =
      ("X", min (causeScoreAmended c5entry.occurrences
        (c5entry.occurrences.filter (fun o => o.success)) c5entry.patterns.success_rate "X")
        (19/20)) := by
  obtain ⟨best, h1, h2, h3⟩ :=
    c5_predict_amended c5store "i" c5entry rfl (List.cons_ne_nil c5occX [])
  have hmap : (c5entry.occurrences.filter (fun o => o.success)).map (fun o => o.root_cause) =
      ["X"] := rfl
  rw [hmap] at h2
  have hb : best = "X" := by simpa using h2
  rw [← hb]
  exact h1

/-- Counterexample for C5 as stated: with one successful occurrence (cause
`"X"`) followed by two failed ones, the code's recency floor of 0.1 makes
the returned confidence 83/150 ≈ 0.553, while the claim's bare
`recency_weight = 0/min(2,total)` formula yields 8/15 ≈ 0.533. -/
theorem c5_recency_floor_counterexample :
    predict_root_cause c5store "i" = ("X", 83/150) ∧
    causeScoreClaim c5entry.occurrences (c5entry.occurrences.filter (fun o => o.success))
      c5entry.patterns.success_rate "X" = 8/15 ∧
    ¬ ((83 : ℚ)/150 = 8/15) := by
  refine ⟨?_, ?_, by norm_num⟩
  · obtain ⟨best, h1, h2, h3⟩ :=
      predict_root_cause_spec c5store "i" c5entry rfl (List.cons_ne_nil c5occX [])
    have hmap : (c5entry.occurrences.filter (fun o => o.success)).map (fun o => o.root_cause) =
        ["X"] := rfl
    rw [hmap] at h2
    have hb : best = "X" := by simpa using h2
    rw [hb] at h1
    rw [h1]
    have hrec : (lastN 2 c5entry.occurrences).countP (fun o => o.root_cause == "X") = 0 := by
      decide
    have hfreq : (c5entry.occurrences.filter (fun o => o.success)).countP
        (fun o => o.root_cause == "X") = 1 := by decide
    have hfil : (c5entry.occurrences.filter (fun o => o.success)).filter
        (fun o => o.root_cause == "X") = [c5occX] := rfl
    have hlen2 : (c5entry.occurrences.filter (fun o => o.success)).length = 1 := by decide
    have hval : causeScoreAmended c5entry.occurrences
        (c5entry.occurrences.filter (fun o => o.success)) c5entry.patterns.success_rate "X" =
        83/150 := by
      simp only [causeScoreAmended, hrec, hfreq, hfil, hlen2]
      norm_num [c5occX, c5entry]
    rw [hval]
    norm_num [min_def]
  · have hmin2 : min c5entry.occurrences.length 2 = 2 := by decide
    have hrec : (lastN 2 c5entry.occurrences).countP (fun o => o.root_cause == "X") = 0 := by
      decide
    have hfreq : (c5entry.occurrences.filter (fun o => o.success)).countP
        (fun o => o.root_cause == "X") = 1 := by decide
    have hfil : (c5entry.occurrences.filter (fun o => o.success)).filter
        (fun o => o.root_cause == "X") = [c5occX] := rfl
    have hlen2 : (c5entry.occurrences.filter (fun o => o.success)).length = 1 := by decide
    simp only [causeScoreClaim, hmin2, hrec, hfreq, hfil, hlen2]
    norm_num [c5occX, c5entry]

theorem sum_bounds_helper (b ks rs hb cb : ℚ) (h0 : 0 ≤ b) (h1 : 0 ≤ ks)
    (h2 : 0 ≤ rs) (h3 : 0 ≤ hb) (h4 : 0 ≤ cb) :
    0 ≤ min 1 (b + ks + rs + hb + cb) ∧ min 1 (b + ks + rs + hb + cb) ≤ 1 :=
  ⟨le_min (by norm_num) (by linarith), min_le_left _ _⟩

/-- C4: every confidence the engine computes lies in `[0, 1]` — the
matcher's match confidence (given a catalog base confidence at least 0),
the root-cause prediction confidence (given stored occurrence confidence
scores and pattern success rate at least 0), and the recommendation
confidence (given a stored pattern success rate at least 0). -/
theorem c4_confidence_bounds :
    (∀ (store : Store) (p : IssuePattern) (input : List Char) (ctx : Option SystemContext)
        (c : ℚ), 0 ≤ p.confidence_base →
        calculate_confidence store p input ctx = some c → 0 ≤ c ∧ c ≤ 1) ∧
    (∀ (s : Store) (issue_id : String),
        (∀ e, lookupEntry s issue_id = some e →
          (∀ o ∈ e.occurrences, 0 ≤ o.confidence_score) ∧ 0 ≤ e.patterns.success_rate) →
        0 ≤ (predict_root_cause s issue_id).2 ∧ (predict_root_cause s issue_id).2 ≤ 1) ∧
    (∀ (s : Store) (issue_id resolution_method : String),
        (∀ e, lookupEntry s issue_id = some e → 0 ≤ e.patterns.success_rate) →
        0 ≤ get_recommendation_confidence s issue_id resolution_method ∧
        get_recommendation_confidence s issue_id resolution_method ≤ 1) := by
  refine ⟨?_, ?_, ?_⟩
  · intro store p input ctx c hbase hc
    cases ctx with
    | none =>
        simp only [calculate_confidence] at hc
        by_cases hk : p.keywords.length = 0
        · rw [if_pos hk] at hc; cases hc
        · rw [if_neg hk] at hc
          by_cases hr : p.regex_patterns.length = 0
          · rw [if_pos hr] at hc; cases hc
          · rw [if_neg hr] at hc
            rw [← Option.some.inj hc]
            exact sum_bounds_helper _ _ _ _ _ hbase (by positivity) (by positivity)
              (by split_ifs <;> norm_num [confidence_adjustments]) le_rfl
    | some cc =>
        simp only [calculate_confidence] at hc
        by_cases hk : p.keywords.length = 0
        · rw [if_pos hk] at hc; cases hc
        · rw [if_neg hk] at hc
          by_cases hr : p.regex_patterns.length = 0
          · rw [if_pos hr] at hc; cases hc
          · rw [if_neg hr] at hc
            rw [← Option.some.inj hc]
            exact sum_bounds_helper _ _ _ _ _ hbase (by positivity) (by positivity)
              (by split_ifs <;> norm_num [confidence_adjustments])
              (context_relevance_nonneg p cc)
  · intro s issue_id h
    cases hl : lookupEntry s issue_id with
    | none => simp only [predict_root_cause, hl]; norm_num
    | some e =>
        obtain ⟨hcs, hsr⟩ := h e hl
        simp only [predict_root_cause, hl]
        by_cases hemp : e.occurrences.isEmpty = true
        · rw [if_pos hemp]; norm_num
        · rw [if_neg hemp]
          by_cases hsuc : (e.occurrences.filter (fun o => o.success)).isEmpty = true
          · rw [if_pos hsuc]; norm_num
          · rw [if_neg hsuc]
            cases hmb : maxBy (causeScore e.occurrences
                (e.occurrences.filter (fun o => o.success)) e.patterns.success_rate)
                (dedupFirst ((e.occurrences.filter (fun o => o.success)).map
                  (fun o => o.root_cause))) with
            | none => norm_num
            | some best =>
                constructor
                · refine le_min ?_ (by norm_num)
                  refine causeScore_nonneg _ _ _ _ ?_ hsr
                  intro o ho
                  exact hcs o (List.mem_of_mem_filter ho)
                · exact le_trans (min_le_right _ _) (by norm_num)
  · intro s issue_id resolution_method h
    cases hl : lookupEntry s issue_id with
    | none => simp only [get_recommendation_confidence, hl]; norm_num
    | some e =>
        have hsr := h e hl
        simp only [get_recommendation_confidence, hl]
        by_cases hemp : e.occurrences.isEmpty = true
        · rw [if_pos hemp]; norm_num
        · rw [if_neg hemp]
          by_cases hsim : (e.occurrences.filter (fun o => containsSub
              (lowerStr resolution_method) (lowerStr o.resolution_method))).isEmpty = true
          · rw [if_pos hsim]; norm_num
          · rw [if_neg hsim]
            constructor
            · refine le_min ?_ (by norm_num)
              have h1 : (0:ℚ) ≤
                  ((e.occurrences.filter (fun o => containsSub (lowerStr resolution_method)
                      (lowerStr o.resolution_method))).countP (fun o => o.success) : ℚ) /
                    ((e.occurrences.filter (fun o => containsSub (lowerStr resolution_method)
                      (lowerStr o.resolution_method))).length : ℚ) := by positivity
              nlinarith
            · exact le_trans (min_le_right _ _) (by norm_num)

/-- Witness for C4: concrete bound checks for all three confidences on a
one-entry store. -/
theorem c4_confidence_bounds_witness :
    (0 ≤ c7pat.confidence_base ∧
      calculate_confidence c4store c7pat (lowerStr "disk full") none = some 1 ∧
      (0 ≤ (1:ℚ) ∧ (1:ℚ) ≤ 1)) ∧
    (0 ≤ (predict_root_cause c4store "kubernetes_pod_crash_loop").2 ∧
      (predict_root_cause c4store "kubernetes_pod_crash_loop").2 ≤ 1) ∧
    (0 ≤ get_recommendation_confidence c4store "kubernetes_pod_crash_loop" "auto" ∧
      get_recommendation_confidence c4store "kubernetes_pod_crash_loop" "auto" ≤ 1) := by
  have hconf : calculate_confidence c4store c7pat (lowerStr "disk full") none = some 1 := by
    rw [calculate_confidence_closed_form c4store c7pat (lowerStr "disk full") none
      (by decide) (by decide)]
    rw [show (c7pat.keywords.countP
      (fun kw => containsSub (lowerStr kw) (lowerStr "disk full"))) = 1 from by decide]
    rw [show (c7pat.regex_patterns.countP
      (fun r => rsearch r (lowerStr "disk full"))) = 1 from by decide]
    rw [show has_similar_issue c4store (pattern_signature c7pat) = false from by decide]
    norm_num [c7pat, min_def]
  refine ⟨⟨by norm_num [c7pat], hconf,
      c4_confidence_bounds.1 c4store c7pat (lowerStr "disk full") none 1
        (by norm_num [c7pat]) hconf⟩,
    c4_confidence_bounds.2.1 c4store "kubernetes_pod_crash_loop" ?_,
    c4_confidence_bounds.2.2 c4store "kubernetes_pod_crash_loop" "auto" ?_⟩
  · intro e he
    rw [show lookupEntry c4store "kubernetes_pod_crash_loop" = some c4entry from rfl] at he
    cases he
    constructor
    · intro o ho
      have ho' : o = c4occ := by simpa [c4entry] using ho
      rw [ho']
      norm_num [c4occ]
    · norm_num [c4entry]
  · intro e he
    rw [show lookupEntry c4store "kubernetes_pod_crash_loop" = some c4entry from rfl] at he
    cases he
    norm_num [c4entry]
